import Mathlib

/-!
# Verification of the compound-quality engine

A shallow embedding of the core of `src/bin/compound-quality.mjs`
(the Croux-Inc/compound-quality CLI): the weighted scorecard computation
with its coverage ratchet, the pattern tracker, the waiver resolver, the
structural schema validator and the gate evaluator of `runVerify`.

JavaScript numbers are modelled as exact rationals (`ℚ`) and integers
(`ℤ`/`ℕ`); `Number.prototype.toFixed(2)` followed by `Number(...)` is
modelled as rounding half-up to two decimals (`round2`), which coincides
with the JavaScript behaviour on every value that already has at most two
decimals — the only values the program ever feeds to it.
-/

namespace CompoundQuality

/-! ## Scorecard engine (src/bin/compound-quality.mjs, lines 143-173) -/

/-- `Number(x.toFixed(2))`: round to two decimal places. -/
def round2 (q : ℚ) : ℚ := (⌊q * 100 + 1/2⌋ : ℚ) / 100

/-- `Math.max(0, Math.min(100, raw))`. -/
def clamp100 (q : ℚ) : ℚ := max 0 (min 100 q)

/-- `toScore(raw)` = `Number(Math.max(0, Math.min(100, raw)).toFixed(2))`
(line 143-145). -/
def toScore (raw : ℚ) : ℚ := round2 (clamp100 raw)

/-- A rational with at most two decimal places (an exact multiple of 1/100).
Every coverage percentage the program produces has this shape, because
`readCoveragePct` rounds its average with `toFixed(2)` (line 364). -/
def IsCenti (q : ℚ) : Prop := ∃ z : ℤ, q * 100 = (z : ℚ)

/-- The metrics snapshot handed to `computeComponentScores` (line 1181-1190). -/
structure Metrics where
  typeErrors : ℕ
  lintViolations : ℕ
  testsPassed : ℕ
  testsFailed : ℕ
  coveragePct : ℚ
  buildExitCode : ℤ

/-- The five named weights (`DEFAULT_WEIGHTS`, user-overridable). -/
structure Weights where
  typeSafety : ℚ
  testHealth : ℚ
  lintCompliance : ℚ
  coverageLevel : ℚ
  buildStability : ℚ

structure ComponentScores where
  overall : ℚ
  typeSafety : ℚ
  testHealth : ℚ
  lintCompliance : ℚ
  coverageLevel : ℚ
  buildStability : ℚ

/-- `computeComponentScores(metrics, weights)` (lines 147-173). -/
def computeComponentScores (metrics : Metrics) (weights : Weights) : ComponentScores :=
  let typeSafety := toScore (if metrics.typeErrors = 0 then 100 else 100 - (metrics.typeErrors : ℚ) * 8)
  let testTotal := metrics.testsPassed + metrics.testsFailed
  let testHealth :=
    if testTotal = 0 then toScore (if metrics.testsFailed = 0 then 70 else 20)
    else toScore ((metrics.testsPassed : ℚ) / (testTotal : ℚ) * 100)
  let lintCompliance := toScore (if metrics.lintViolations = 0 then 100 else 100 - (metrics.lintViolations : ℚ) * 4)
  let coverageLevel := toScore metrics.coveragePct
  let buildStability : ℚ := if metrics.buildExitCode = 0 then 100 else 0
  let overall := toScore
    (typeSafety * weights.typeSafety +
      testHealth * weights.testHealth +
      lintCompliance * weights.lintCompliance +
      coverageLevel * weights.coverageLevel +
      buildStability * weights.buildStability)
  { overall := overall
    typeSafety := typeSafety
    testHealth := testHealth
    lintCompliance := lintCompliance
    coverageLevel := coverageLevel
    buildStability := buildStability }

/-! ## Coverage ratchet (src/bin/compound-quality.mjs, lines 1170-1179) -/

/-- The per-run inputs the ratchet consumes: the test command's exit code,
how many packages yielded a coverage summary, the configured expected
package count, and the measured average coverage percentage. -/
structure ReflectRun where
  testExitCode : ℤ
  coveragePackageCount : ℕ
  expectedPackages : ℕ
  coveragePct : ℚ

/-- Line 1172: `testExitCode === 0 && coverage.packageCount === config.coverage.expectedPackages`. -/
def coverageQualified (run : ReflectRun) : Bool :=
  run.testExitCode == 0 && run.coveragePackageCount == run.expectedPackages

/-- Line 1175: `Math.max(0, Number((coverage.pct - 2).toFixed(2)))`. -/
def candidateFloor (pct : ℚ) : ℚ := max 0 (round2 (pct - 2))

/-- The persisted part of the scorecard the next run's ratchet reads
(`previous.thresholds`, lines 1173-1174 and 1216-1218). A missing previous
scorecard reads as `{ coverageFloor := 0, coverageQualified := false }`. -/
structure RatchetState where
  coverageFloor : ℚ
  coverageQualified : Bool

/-- Lines 1172-1179 and 1216-1218 of `runReflect`, as a state transformer:
the floor ratchets only on a qualified run, and the stored qualification
flag is always the current run's. -/
def ratchetStep (prev : RatchetState) (run : ReflectRun) : RatchetState :=
  let qualified := coverageQualified run
  let cand := candidateFloor run.coveragePct
  { coverageFloor :=
      if qualified then
        (if prev.coverageQualified then max prev.coverageFloor cand else cand)
      else prev.coverageFloor
    coverageQualified := qualified }

/-- The coverage floor after each run of a sequence, starting from `s`
(head = `s`'s floor, then one entry per run). -/
def floorTrace (s : RatchetState) : List ReflectRun → List ℚ
  | [] => [s.coverageFloor]
  | r :: rest => s.coverageFloor :: floorTrace (ratchetStep s r) rest

/-! ## Pattern tracker (src/bin/compound-quality.mjs, lines 175-179 and 1237-1258) -/

inductive Recommendation where
  | none
  | claude_rule
  | lint_rule
deriving DecidableEq, Repr

/-- `claudeRuleThreshold` / `lintRuleThreshold` (config, defaults 3 and 5). -/
structure PatternThresholds where
  claudeRule : ℕ
  lintRule : ℕ

/-- `recommendationForCount(count, thresholds)` (lines 175-179). -/
def recommendationForCount (count : ℕ) (thresholds : PatternThresholds) : Recommendation :=
  if count ≥ thresholds.lintRule then .lint_rule
  else if count ≥ thresholds.claudeRule then .claude_rule
  else .none

/-- The defaults of `normalizeConfig` (lines 256-257). -/
def defaultThresholds : PatternThresholds := { claudeRule := 3, lintRule := 5 }

/-- The order `none < claude_rule < lint_rule` of the spec. -/
def recRank : Recommendation → ℕ
  | .none => 0
  | .claude_rule => 1
  | .lint_rule => 2

/-- A persisted pattern record (`patternsFile.patterns[key]`); the
`lastSeenAt` timestamp carries no logic and is not modelled. -/
structure PatternRecord where
  count : ℕ
  recommendation : Recommendation

/-- The per-pattern body of the `runReflect` update loop (lines 1237-1258):
returns the record written back and whether a promotion event was emitted.
A fresh pattern enters the loop as `{ count := 0, recommendation := .none }`
(lines 1238-1242). -/
def patternStep (thresholds : PatternThresholds) (existing : PatternRecord)
    (seenCount : ℕ) : PatternRecord × Bool :=
  let updatedCount := existing.count + seenCount
  let recommendation := recommendationForCount updatedCount thresholds
  ({ count := updatedCount, recommendation := recommendation },
   recommendation != .none && recommendation != existing.recommendation)

/-! ## Arithmetic lemmas about `round2` and `clamp100` -/

theorem round2_eq_self {q : ℚ} (h : IsCenti q) : round2 q = q := by
  obtain ⟨z, hz⟩ := h
  unfold round2
  rw [hz, Int.floor_int_add]
  have h2 : ⌊(1 : ℚ) / 2⌋ = 0 := by norm_num
  rw [h2, add_zero]
  field_simp
  linarith [hz]

theorem isCenti_intCast (z : ℤ) : IsCenti (z : ℚ) := ⟨z * 100, by push_cast; ring⟩

theorem isCenti_natCast (n : ℕ) : IsCenti (n : ℚ) := by
  simpa using isCenti_intCast (n : ℤ)

theorem IsCenti.sub {a b : ℚ} (ha : IsCenti a) (hb : IsCenti b) : IsCenti (a - b) := by
  obtain ⟨x, hx⟩ := ha
  obtain ⟨y, hy⟩ := hb
  exact ⟨x - y, by push_cast; rw [sub_mul, hx, hy]⟩

theorem IsCenti.min {a b : ℚ} (ha : IsCenti a) (hb : IsCenti b) : IsCenti (min a b) := by
  rcases le_total a b with h | h
  · rwa [min_eq_left h]
  · rwa [min_eq_right h]

theorem IsCenti.max {a b : ℚ} (ha : IsCenti a) (hb : IsCenti b) : IsCenti (max a b) := by
  rcases le_total a b with h | h
  · rwa [max_eq_right h]
  · rwa [max_eq_left h]

theorem isCenti_clamp100 {q : ℚ} (h : IsCenti q) : IsCenti (clamp100 q) := by
  have h0 : IsCenti (0 : ℚ) := by simpa using isCenti_intCast 0
  have h100 : IsCenti (100 : ℚ) := by simpa using isCenti_intCast 100
  exact h0.max (h100.min h)

theorem isCenti_round2 (q : ℚ) : IsCenti (round2 q) := by
  refine ⟨⌊q * 100 + 1/2⌋, ?_⟩
  unfold round2
  field_simp

theorem clamp100_nonneg (q : ℚ) : 0 ≤ clamp100 q := le_max_left 0 _

theorem clamp100_le_100 (q : ℚ) : clamp100 q ≤ 100 := by
  unfold clamp100
  rcases le_total (min 100 q) 0 with h | h
  · rw [max_eq_left h]
    norm_num
  · rw [max_eq_right h]
    exact min_le_left 100 q

theorem clamp100_eq_self {q : ℚ} (h0 : 0 ≤ q) (h100 : q ≤ 100) : clamp100 q = q := by
  unfold clamp100
  rw [min_eq_right h100, max_eq_right h0]

theorem round2_nonneg {q : ℚ} (h : 0 ≤ q) : 0 ≤ round2 q := by
  unfold round2
  have : (0 : ℤ) ≤ ⌊q * 100 + 1/2⌋ := by
    rw [Int.le_floor]
    push_cast
    linarith
  positivity

theorem round2_le_100 {q : ℚ} (h : q ≤ 100) : round2 q ≤ 100 := by
  unfold round2
  have hfl : ⌊q * 100 + 1/2⌋ ≤ 10000 := by
    have hle : (⌊q * 100 + 1/2⌋ : ℚ) ≤ q * 100 + 1/2 := Int.floor_le _
    have h2 : ((⌊q * 100 + 1/2⌋ : ℤ) : ℚ) < ((10001 : ℤ) : ℚ) := by push_cast; linarith
    exact Int.lt_add_one_iff.mp (by exact_mod_cast h2)
  rw [div_le_iff₀ (by norm_num : (0:ℚ) < 100)]
  calc ((⌊q * 100 + 1/2⌋ : ℤ) : ℚ) ≤ ((10000 : ℤ) : ℚ) := by exact_mod_cast hfl
    _ ≤ 100 * 100 := by norm_num

theorem toScore_nonneg (q : ℚ) : 0 ≤ toScore q := round2_nonneg (clamp100_nonneg q)

theorem toScore_le_100 (q : ℚ) : toScore q ≤ 100 := round2_le_100 (clamp100_le_100 q)

theorem toScore_eq_clamp100 {q : ℚ} (h : IsCenti q) : toScore q = clamp100 q :=
  round2_eq_self (isCenti_clamp100 h)

theorem isCenti_two : IsCenti (2 : ℚ) := by simpa using isCenti_intCast 2

theorem candidateFloor_eq {pct : ℚ} (h : IsCenti pct) :
    candidateFloor pct = max 0 (pct - 2) := by
  unfold candidateFloor
  rw [round2_eq_self (h.sub isCenti_two)]

theorem ratchetStep_coverageQualified (s : RatchetState) (r : ReflectRun) :
    (ratchetStep s r).coverageQualified = coverageQualified r := rfl

theorem floorTrace_head (s : RatchetState) (runs : List ReflectRun) :
    (floorTrace s runs).head? = some s.coverageFloor := by
  cases runs <;> rfl

theorem floorTrace_chain (s : RatchetState) (runs : List ReflectRun)
    (hs : s.coverageQualified = true)
    (hall : ∀ r ∈ runs, coverageQualified r = true) :
    List.Chain' (· ≤ ·) (floorTrace s runs) := by
  induction runs generalizing s with
  | nil => simp [floorTrace]
  | cons r rest ih =>
    rw [floorTrace, List.chain'_cons']
    have hr : coverageQualified r = true := hall r (by simp)
    constructor
    · intro b hb
      rw [floorTrace_head] at hb
      cases hb
      show s.coverageFloor ≤ (ratchetStep s r).coverageFloor
      simp only [ratchetStep, hr, hs, if_true]
      exact le_max_left _ _
    · exact ih (ratchetStep s r) (by rw [ratchetStep_coverageQualified, hr])
        (fun x hx => hall x (by simp [hx]))

/-- **C1.** On a qualified reflect run the persisted coverage floor becomes
`max(previousFloor, max(0, coverage - 2))` when the previous run was also
qualified and `max(0, coverage - 2)` when it was not; on an unqualified run
the floor is unchanged. Across any sequence of consecutive qualified runs
the floor is monotonically non-decreasing. (Coverage percentages carry at
most two decimals, as `readCoveragePct` produces them.) -/
theorem coverage_floor_ratchet :
    (∀ (prev : RatchetState) (run : ReflectRun), IsCenti run.coveragePct →
      (coverageQualified run = true → prev.coverageQualified = true →
        (ratchetStep prev run).coverageFloor
          = max prev.coverageFloor (max 0 (run.coveragePct - 2))) ∧
      (coverageQualified run = true → prev.coverageQualified = false →
        (ratchetStep prev run).coverageFloor = max 0 (run.coveragePct - 2)) ∧
      (coverageQualified run = false →
        (ratchetStep prev run).coverageFloor = prev.coverageFloor)) ∧
    (∀ (s : RatchetState) (runs : List ReflectRun),
      (∀ r ∈ runs, coverageQualified r = true) →
      List.Chain' (· ≤ ·) ((floorTrace s runs).tail)) := by
  constructor
  · intro prev run hc
    refine ⟨fun hq hpq => ?_, fun hq hpq => ?_, fun hq => ?_⟩
    · simp [ratchetStep, hq, hpq, candidateFloor_eq hc]
    · simp [ratchetStep, hq, hpq, candidateFloor_eq hc]
    · simp [ratchetStep, hq]
  · intro s runs hall
    cases runs with
    | nil => simp [floorTrace]
    | cons r rest =>
      rw [floorTrace, List.tail_cons]
      exact floorTrace_chain (ratchetStep s r) rest
        (by rw [ratchetStep_coverageQualified]; exact hall r (by simp))
        (fun x hx => hall x (by simp [hx]))

/-- **C2.** Every component score of `computeComponentScores` lies in
[0,100]; type safety is `clamp(100 - 8·typeErrors)`, lint compliance is
`clamp(100 - 4·lintViolations)`, coverage level is `clamp(coveragePct)`
(for the two-decimal percentages the program produces), build stability is
0 or 100, test health follows the specified formula, and the overall score
is the weighted sum of the five components clamped to [0,100] and rounded
to exactly two decimal places. -/
theorem component_scores_spec (m : Metrics) (w : Weights) :
    (0 ≤ (computeComponentScores m w).typeSafety ∧ (computeComponentScores m w).typeSafety ≤ 100) ∧
    (0 ≤ (computeComponentScores m w).testHealth ∧ (computeComponentScores m w).testHealth ≤ 100) ∧
    (0 ≤ (computeComponentScores m w).lintCompliance ∧ (computeComponentScores m w).lintCompliance ≤ 100) ∧
    (0 ≤ (computeComponentScores m w).coverageLevel ∧ (computeComponentScores m w).coverageLevel ≤ 100) ∧
    ((computeComponentScores m w).buildStability = 0 ∨ (computeComponentScores m w).buildStability = 100) ∧
    ((computeComponentScores m w).typeSafety = clamp100 (100 - 8 * (m.typeErrors : ℚ))) ∧
    ((computeComponentScores m w).lintCompliance = clamp100 (100 - 4 * (m.lintViolations : ℚ))) ∧
    (IsCenti m.coveragePct →
      (computeComponentScores m w).coverageLevel = clamp100 m.coveragePct) ∧
    (m.testsPassed + m.testsFailed = 0 → (computeComponentScores m w).testHealth = 70) ∧
    (0 < m.testsPassed + m.testsFailed →
      (computeComponentScores m w).testHealth
        = round2 (100 * (m.testsPassed : ℚ) / ((m.testsPassed + m.testsFailed : ℕ) : ℚ))) ∧
    ((computeComponentScores m w).overall
      = round2 (clamp100
          ((computeComponentScores m w).typeSafety * w.typeSafety +
            (computeComponentScores m w).testHealth * w.testHealth +
            (computeComponentScores m w).lintCompliance * w.lintCompliance +
            (computeComponentScores m w).coverageLevel * w.coverageLevel +
            (computeComponentScores m w).buildStability * w.buildStability))) ∧
    (0 ≤ (computeComponentScores m w).overall ∧ (computeComponentScores m w).overall ≤ 100) ∧
    IsCenti (computeComponentScores m w).overall := by
  have hts : (computeComponentScores m w).typeSafety = clamp100 (100 - 8 * (m.typeErrors : ℚ)) := by
    simp only [computeComponentScores]
    by_cases h : m.typeErrors = 0
    · rw [if_pos h, h]
      rw [toScore_eq_clamp100 (by simpa using isCenti_intCast 100)]
      norm_num
    · rw [if_neg h]
      rw [toScore_eq_clamp100 ⟨10000 - m.typeErrors * 800, by push_cast; ring⟩]
      ring_nf
  have hlint : (computeComponentScores m w).lintCompliance = clamp100 (100 - 4 * (m.lintViolations : ℚ)) := by
    simp only [computeComponentScores]
    by_cases h : m.lintViolations = 0
    · rw [if_pos h, h]
      rw [toScore_eq_clamp100 (by simpa using isCenti_intCast 100)]
      norm_num
    · rw [if_neg h]
      rw [toScore_eq_clamp100 ⟨10000 - m.lintViolations * 400, by push_cast; ring⟩]
      ring_nf
  refine ⟨⟨?_, ?_⟩, ⟨?_, ?_⟩, ⟨?_, ?_⟩, ⟨?_, ?_⟩, ?_, hts, hlint, ?_, ?_, ?_, ?_, ⟨?_, ?_⟩, ?_⟩
  · rw [hts]; exact clamp100_nonneg _
  · rw [hts]; exact clamp100_le_100 _
  · simp only [computeComponentScores]
    split <;> exact toScore_nonneg _
  · simp only [computeComponentScores]
    split <;> exact toScore_le_100 _
  · rw [hlint]; exact clamp100_nonneg _
  · rw [hlint]; exact clamp100_le_100 _
  · exact toScore_nonneg _
  · exact toScore_le_100 _
  · simp only [computeComponentScores]
    split <;> simp
  · intro hc
    exact toScore_eq_clamp100 hc
  · intro h
    obtain ⟨hp, hf⟩ := Nat.add_eq_zero.mp h
    have h70 : toScore 70 = 70 := by
      rw [toScore_eq_clamp100 (by simpa using isCenti_intCast 70)]
      unfold clamp100
      norm_num
    simp [computeComponentScores, hp, hf, h70]
  · intro h
    have hne : m.testsPassed + m.testsFailed ≠ 0 := Nat.pos_iff_ne_zero.mp h
    simp only [computeComponentScores, if_neg hne]
    have htot : (0 : ℚ) < ((m.testsPassed + m.testsFailed : ℕ) : ℚ) := by
      exact_mod_cast h
    have hle : (m.testsPassed : ℚ) ≤ ((m.testsPassed + m.testsFailed : ℕ) : ℚ) := by
      exact_mod_cast Nat.le_add_right _ _
    unfold toScore
    rw [clamp100_eq_self (by positivity)
      (by rw [mul_comm, ← mul_div_assoc]
          rw [div_le_iff₀ htot]
          nlinarith)]
    congr 1
    push_cast
    ring
  · rfl
  · exact toScore_nonneg _
  · exact toScore_le_100 _
  · exact isCenti_round2 _

theorem recommendationForCount_eq_none_iff (c : ℕ) (t : PatternThresholds) :
    recommendationForCount c t = .none ↔ c < t.lintRule ∧ c < t.claudeRule := by
  unfold recommendationForCount
  split_ifs <;> simp <;> omega

/-- **C3.** With the default thresholds (claude 3, lint 5),
`recommendationForCount` maps count 2 to `none`, counts 3 and 4 to
`claude_rule`, and counts ≥ 5 to `lint_rule`; it is monotone non-decreasing
in the count under `none < claude_rule < lint_rule`, and a run's update —
which always adds the sighting count to the cumulative total — never moves
a consistently-stored recommendation backward. -/
theorem recommendation_monotone :
    (recommendationForCount 2 defaultThresholds = Recommendation.none) ∧
    (recommendationForCount 3 defaultThresholds = Recommendation.claude_rule) ∧
    (recommendationForCount 4 defaultThresholds = Recommendation.claude_rule) ∧
    (∀ c, 5 ≤ c → recommendationForCount c defaultThresholds = Recommendation.lint_rule) ∧
    (∀ (t : PatternThresholds) (c d : ℕ), c ≤ d →
      recRank (recommendationForCount c t) ≤ recRank (recommendationForCount d t)) ∧
    (∀ (p : PatternRecord) (seen : ℕ),
      p.recommendation = recommendationForCount p.count defaultThresholds →
      recRank p.recommendation
        ≤ recRank ((patternStep defaultThresholds p seen).1.recommendation)) := by
  have hmono : ∀ (t : PatternThresholds) (c d : ℕ), c ≤ d →
      recRank (recommendationForCount c t) ≤ recRank (recommendationForCount d t) := by
    intro t c d h
    unfold recommendationForCount
    split_ifs <;> simp [recRank] <;> omega
  refine ⟨by decide, by decide, by decide, ?_, hmono, ?_⟩
  · intro c hc
    unfold recommendationForCount
    rw [if_pos (show c ≥ defaultThresholds.lintRule from hc)]
  · intro p seen hcons
    rw [hcons]
    exact hmono defaultThresholds p.count (p.count + seen) (Nat.le_add_right _ _)

/-- **C4.** For a pattern whose stored recommendation is consistent with its
stored cumulative count (as every record the program itself writes is), the
update step emits a promotion event if and only if the recommendation
recomputed from the updated cumulative count differs from the
recommendation stored before the update. -/
theorem promotion_iff_transition (t : PatternThresholds) (p : PatternRecord) (seen : ℕ)
    (hcons : p.recommendation = recommendationForCount p.count t) :
    (patternStep t p seen).2 = true ↔
      (patternStep t p seen).1.recommendation ≠ p.recommendation := by
  simp only [patternStep, Bool.and_eq_true, bne_iff_ne, ne_eq]
  constructor
  · rintro ⟨-, hne⟩
    exact hne
  · intro hne
    refine ⟨?_, hne⟩
    intro hnone
    apply hne
    obtain ⟨h1, h2⟩ := (recommendationForCount_eq_none_iff (p.count + seen) t).mp hnone
    rw [hnone, hcons,
      (recommendationForCount_eq_none_iff p.count t).mpr ⟨by omega, by omega⟩]

/-- Witness for C4 at a concrete consistent record: count 2 with
recommendation `none`, one new sighting crossing the claude threshold. -/
theorem promotion_iff_transition_witness :
    (patternStep defaultThresholds ⟨2, Recommendation.none⟩ 1).2 = true ↔
      (patternStep defaultThresholds ⟨2, Recommendation.none⟩ 1).1.recommendation
        ≠ Recommendation.none :=
  promotion_iff_transition defaultThresholds ⟨2, Recommendation.none⟩ 1 (by decide)

/-! ## JSON values

Parsed JSON data (the output of `JSON.parse`): used for schema documents,
validated data and the interpolation context. JavaScript numbers are
modelled as exact rationals. -/

inductive Json where
  | null
  | bool (b : Bool)
  | num (q : ℚ)
  | str (s : String)
  | arr (elems : List Json)
  | obj (fields : List (String × Json))
deriving Repr

mutual

/-- Structural equality of parsed JSON values (field order significant).
On the image of `JSON.parse` this is exactly `JSON.stringify(a) ===
JSON.stringify(b)`: stringification is a canonical, injective rendering
of parsed values, preserving object key order. -/
def Json.beq : Json → Json → Bool
  | .null, .null => true
  | .bool a, .bool b => a == b
  | .num a, .num b => a == b
  | .str a, .str b => a == b
  | .arr as, .arr bs => Json.beqList as bs
  | .obj as, .obj bs => Json.beqFields as bs
  | _, _ => false

def Json.beqList : List Json → List Json → Bool
  | [], [] => true
  | a :: as, b :: bs => Json.beq a b && Json.beqList as bs
  | _, _ => false

def Json.beqFields : List (String × Json) → List (String × Json) → Bool
  | [], [] => true
  | (k1, v1) :: as, (k2, v2) :: bs => k1 == k2 && Json.beq v1 v2 && Json.beqFields as bs
  | _, _ => false

end

instance : BEq Json := ⟨Json.beq⟩

mutual

theorem Json.eq_of_beq : ∀ {a b : Json}, Json.beq a b = true → a = b
  | .null, .null, _ => rfl
  | .bool a, .bool b, h => by simp [Json.beq] at h; simp [h]
  | .num a, .num b, h => by simp [Json.beq] at h; simp [h]
  | .str a, .str b, h => by simp [Json.beq] at h; simp [h]
  | .arr as, .arr bs, h =>
      congrArg Json.arr (Json.eqList_of_beqList (by simpa [Json.beq] using h))
  | .obj as, .obj bs, h =>
      congrArg Json.obj (Json.eqFields_of_beqFields (by simpa [Json.beq] using h))

theorem Json.eqList_of_beqList : ∀ {as bs : List Json}, Json.beqList as bs = true → as = bs
  | [], [], _ => rfl
  | a :: as, b :: bs, h => by
      simp only [Json.beqList, Bool.and_eq_true] at h
      rw [Json.eq_of_beq h.1, Json.eqList_of_beqList h.2]

theorem Json.eqFields_of_beqFields :
    ∀ {as bs : List (String × Json)}, Json.beqFields as bs = true → as = bs
  | [], [], _ => rfl
  | (k1, v1) :: as, (k2, v2) :: bs, h => by
      simp only [Json.beqFields, Bool.and_eq_true, beq_iff_eq] at h
      rw [h.1.1, Json.eq_of_beq h.1.2, Json.eqFields_of_beqFields h.2]

end

mutual

theorem Json.beq_self : ∀ (a : Json), Json.beq a a = true
  | .null => rfl
  | .bool a => by simp [Json.beq]
  | .num a => by simp [Json.beq]
  | .str a => by simp [Json.beq]
  | .arr as => by simp [Json.beq, Json.beqList_self as]
  | .obj as => by simp [Json.beq, Json.beqFields_self as]

theorem Json.beqList_self : ∀ (as : List Json), Json.beqList as as = true
  | [] => rfl
  | a :: as => by simp [Json.beqList, Json.beq_self a, Json.beqList_self as]

theorem Json.beqFields_self : ∀ (as : List (String × Json)), Json.beqFields as as = true
  | [] => rfl
  | (k, v) :: as => by simp [Json.beqFields, Json.beq_self v, Json.beqFields_self as]

end

instance : LawfulBEq Json where
  eq_of_beq := Json.eq_of_beq
  rfl := Json.beq_self _

instance : DecidableEq Json := fun a b =>
  decidable_of_iff (Json.beq a b = true) ⟨Json.eq_of_beq, fun h => h ▸ Json.beq_self a⟩

/-- Named-property access `value[key]` as `JSON.parse` output supports it:
a named lookup on an object (parsed objects have unique keys, so first
match is the match), a canonical numeric index on an array, `undefined`
(`none`) on every other value. -/
def Json.index : Json → String → Option Json
  | .obj fields, part => (fields.find? (fun f => f.1 == part)).map (fun f => f.2)
  | .arr elems, part =>
      match part.toNat? with
      | some n => if toString n = part then elems.get? n else none
      | none => none
  | _, _ => none

/-- `schema.key`: named-property access that is `none` on arrays too
(an array has no named properties of the kinds the program reads). -/
def Json.getField : Json → String → Option Json
  | .obj fields, key => (fields.find? (fun f => f.1 == key)).map (fun f => f.2)
  | _, _ => none

/-- JavaScript truthiness of a parsed JSON value. -/
def Json.truthy : Json → Bool
  | .null => false
  | .bool b => b
  | .num q => !(q == 0)
  | .str s => !(s == "")
  | .arr _ => true
  | .obj _ => true

/-- Rendering of a number under `String(...)`/template interpolation:
exact for the integral values the program ever renders, and injective
(JavaScript's shortest-round-trip decimal rendering is injective too). -/
def ratToString (q : ℚ) : String :=
  if q.den = 1 then toString q.num else toString q.num ++ "/" ++ toString q.den

/-- The `String(value)` coercion used by template interpolation: arrays
join their elements with commas (`null` elements become empty), objects
render as `[object Object]`. -/
def Json.jsToString : Json → String
  | .null => "null"
  | .bool true => "true"
  | .bool false => "false"
  | .num q => ratToString q
  | .str s => s
  | .arr elems =>
      String.intercalate "," (elems.attach.map (fun e =>
        match e with
        | ⟨.null, _⟩ => ""
        | ⟨v, _⟩ => Json.jsToString v))
  | .obj _ => "[object Object]"
decreasing_by
  all_goals simp_wf
  all_goals rename_i h
  all_goals (have hlt := List.sizeOf_lt_of_mem h; omega)

/-! ## Template interpolation (src/bin/compound-quality.mjs, lines 407-425) -/

/-- `getPathValue(input, pathExpr)` (lines 407-416): split the expression
on dots and navigate; any step through a non-container yields `undefined`. -/
def getPathValue (input : Json) (pathExpr : String) : Option Json :=
  if pathExpr = "" then none
  else
    (pathExpr.splitOn ".").foldl
      (fun current part =>
        match current with
        | some c => c.index part
        | none => none)
      (some input)

/-- The character class of the interpolation token regex
`/\$\{([a-zA-Z0-9_.-]+)\}/g`. -/
def isKeyChar (c : Char) : Bool :=
  ('a' ≤ c && c ≤ 'z') || ('A' ≤ c && c ≤ 'Z') || ('0' ≤ c && c ≤ '9') ||
    c == '_' || c == '.' || c == '-'

theorem len_dropWhile_le {α : Type} (p : α → Bool) :
    ∀ (l : List α), (l.dropWhile p).length ≤ l.length
  | [] => le_refl _
  | a :: l => by
      rw [List.dropWhile_cons]
      split
      · exact (len_dropWhile_le p l).trans (Nat.le_succ _)
      · exact le_refl _

/-- The scan of `interpolateTemplate` (lines 418-425): each non-overlapping
`$\x7bkey\x7d` token whose context value is defined and non-null is replaced
by `String(value)`; otherwise the token text is kept. -/
def interpGo (ctx : Json) : List Char → List Char
  | '$' :: '{' :: rest =>
      let key := rest.takeWhile isKeyChar
      if key.isEmpty then '$' :: '{' :: interpGo ctx rest
      else
        match _hafter : rest.dropWhile isKeyChar with
        | '}' :: rest2 =>
            (match getPathValue ctx (String.mk key) with
             | none => '$' :: '{' :: (key ++ ['}'])
             | some Json.null => '$' :: '{' :: (key ++ ['}'])
             | some v => v.jsToString.data) ++ interpGo ctx rest2
        | _ => '$' :: '{' :: interpGo ctx rest
  | c :: rest => c :: interpGo ctx rest
  | [] => []
termination_by cs => cs.length
decreasing_by
  all_goals simp_wf
  all_goals try omega
  have h1 : (List.dropWhile isKeyChar rest).length ≤ rest.length :=
    len_dropWhile_le isKeyChar rest
  rw [_hafter] at h1
  simp at h1
  omega

/-- `interpolateTemplate(input, context)` for a string input (line 418-425);
a non-string input passes through unchanged, handled at call sites via
`interpOpt`. -/
def interpolateTemplate (input : String) (ctx : Json) : String :=
  String.mk (interpGo ctx input.data)

def interpOpt (input : Option String) (ctx : Json) : Option String :=
  input.map (fun s => interpolateTemplate s ctx)

/-! ## Waivers and gate results (src/bin/compound-quality.mjs, lines 568-585, 714-878, 1374-1398) -/

/-- A waiver record from the waivers file. `expiresAt` holds the parsed
expiry timestamp (milliseconds); an absent, empty or unparsable
`expiresAt` string behaves exactly like an absent one in matching
(lines 576-581 skip a waiver only when the parsed date is valid and past),
so both are modelled as `none`. -/
structure Waiver where
  gateId : Option String
  taskId : Option String
  expiresAt : Option Int
  reason : Option String := none
  approvedBy : Option String := none
deriving DecidableEq, Repr

/-- The `waiver` object attached to a waived gate result (lines 1386-1392). -/
structure WaiverInfo where
  gateId : Option String
  taskId : Option String
  reason : String
  approvedBy : String
  expiresAt : Option Int
deriving DecidableEq, Repr

inductive GateStatus where
  | pass
  | fail
  | waived
deriving DecidableEq, Repr

/-- A per-task check of a `file_exists` gate (lines 757-761);
`existsOnDisk` is the source's `exists` field. -/
structure FileCheck where
  taskId : Option String
  path : String
  existsOnDisk : Bool
deriving DecidableEq, Repr

/-- A per-task check of a `json_schema` gate (lines 811-843). -/
structure SchemaCheck where
  taskId : Option String
  file : String
  valid : Bool
  errors : List String
deriving DecidableEq, Repr

/-- A gate result as `evaluateVerifyGate` / `runVerify` build it. Fields a
branch does not set default to `none`/`[]`; the wall-clock `durationMs`
field carries no logic and is not modelled. -/
structure GateResult where
  id : Option String
  type : Option String
  required : Bool
  status : GateStatus
  message : String
  command : Option String := none
  exitCode : Option Int := none
  stdout : Option String := none
  stderr : Option String := none
  file : Option String := none
  schemaFile : Option String := none
  fileChecks : List FileCheck := []
  schemaChecks : List SchemaCheck := []
  waiver : Option WaiverInfo := none
deriving Repr

/-- Line 571: `waiver.gateId === gateResult.id || waiver.gateId === "*"`. -/
def waiverGateMatch (w : Waiver) (resultId : Option String) : Bool :=
  w.gateId == resultId || w.gateId == some "*"

/-- Lines 573-574: `!waiver.taskId || waiver.taskId === "*" ||
taskIds.length === 0 || taskIds.includes(String(waiver.taskId))`.
An empty-string task id is falsy in JavaScript, hence the first test. -/
def waiverTaskMatch (w : Waiver) (taskIds : List String) : Bool :=
  (match w.taskId with | none => true | some t => t == "") ||
    w.taskId == some "*" || taskIds.isEmpty ||
    (match w.taskId with | some t => taskIds.contains t | none => false)

/-- Lines 576-581: a waiver is skipped only when its parsed expiry is valid
and strictly in the past (`Date.now() > expiry`). -/
def waiverUnexpired (w : Waiver) (now : Int) : Bool :=
  match w.expiresAt with
  | none => true
  | some t => !(now > t)

/-- `findMatchingWaiver(waivers, gateResult, taskIds)` (lines 568-585);
`now` is the `Date.now()` the source reads inside the loop. Non-object
entries of the list (skipped by line 570) have no counterpart in the
typed model. -/
def findMatchingWaiver : List Waiver → GateResult → List String → Int → Option Waiver
  | [], _, _, _ => none
  | w :: rest, r, taskIds, now =>
      if waiverGateMatch w r.id && waiverTaskMatch w taskIds && waiverUnexpired w now then
        some w
      else
        findMatchingWaiver rest r taskIds now

/-- The acceptance predicate exactly as the specification words it: gate id
matches or is `*`; task id absent (or empty), `*`, no resolved ids, or
among the resolved ids; and no expiry or expiry not in the past. -/
def waiverAccepts (r : GateResult) (taskIds : List String) (now : Int) (w : Waiver) : Bool :=
  (w.gateId == r.id || w.gateId == some "*") &&
    ((match w.taskId with | none => true | some t => t == "") ||
      w.taskId == some "*" || taskIds.isEmpty ||
      (match w.taskId with | some t => taskIds.contains t | none => false)) &&
    (match w.expiresAt with | none => true | some t => now ≤ t)

theorem waiverAccepts_eq (r : GateResult) (taskIds : List String) (now : Int) (w : Waiver) :
    (waiverGateMatch w r.id && waiverTaskMatch w taskIds && waiverUnexpired w now)
      = waiverAccepts r taskIds now w := by
  unfold waiverGateMatch waiverTaskMatch waiverUnexpired waiverAccepts
  rcases w with ⟨g, t, e, _, _⟩
  cases e with
  | none => rfl
  | some x =>
      congr 1
      show (!decide (now > x)) = decide (now ≤ x)
      rw [← decide_not, decide_eq_decide]
      omega

/-- **C6.** `findMatchingWaiver` returns the first waiver in list order
whose gate id matches the failed gate's id or is `*`, whose task id is
absent, `*`, unmatched only against an empty resolved set, or among the
resolved ids, and which has no expiry or an expiry not in the past. In
particular an expired waiver never matches, an otherwise-identical waiver
with no expiry always matches, and a later more specific waiver never
takes precedence over an earlier matching general one (first match wins). -/
theorem findMatchingWaiver_spec (waivers : List Waiver) (r : GateResult)
    (taskIds : List String) (now : Int) :
    (findMatchingWaiver waivers r taskIds now
      = waivers.find? (waiverAccepts r taskIds now)) ∧
    (∀ (w : Waiver) (t : Int), w.expiresAt = some t → t < now →
      findMatchingWaiver [w] r taskIds now = none) ∧
    (∀ w : Waiver, w.expiresAt = none →
      waiverGateMatch w r.id = true → waiverTaskMatch w taskIds = true →
      findMatchingWaiver [w] r taskIds now = some w) := by
  refine ⟨?_, ?_, ?_⟩
  · induction waivers with
    | nil => rfl
    | cons w rest ih =>
      rw [findMatchingWaiver, List.find?_cons, waiverAccepts_eq r taskIds now w]
      cases h : waiverAccepts r taskIds now w
      · simpa [h] using ih
      · simp [h]
  · intro w t he hlt
    rw [findMatchingWaiver]
    have : waiverUnexpired w now = false := by
      simp [waiverUnexpired, he]
      omega
    simp [this, findMatchingWaiver]
  · intro w he hg ht
    rw [findMatchingWaiver]
    have : waiverUnexpired w now = true := by simp [waiverUnexpired, he]
    simp [hg, ht, this]

/-! ## Structural schema validator (src/bin/compound-quality.mjs, lines 587-712) -/

/-- Line 587-589. -/
def createValidationError (path message : String) : String := path ++ ": " ++ message

/-- `typeof schema === "object"` together with `!schema` (line 610): `null`
is falsy, and JavaScript arrays have `typeof "object"`. -/
def Json.isObjectLike : Json → Bool
  | .obj _ => true
  | .arr _ => true
  | _ => false

/-- JSON-pointer unescaping of one part (line 596):
`part.replace(/~1/g, "/").replace(/~0/g, "~")`. -/
def unescapePointerPart (s : String) : String :=
  (s.replace "~1" "/").replace "~0" "~"

/-- `resolveSchemaRef(rootSchema, ref)` (lines 591-601): local fragment
pointers of the form `#/a/b/c` only. -/
def resolveSchemaRef (rootSchema : Json) (ref : Json) : Option Json :=
  match ref with
  | .str s =>
      if s.startsWith "#/" then
        (((s.drop 2).splitOn "/").foldl
          (fun current rawPart =>
            match current with
            | some c => c.index (unescapePointerPart rawPart)
            | none => none)
          (some rootSchema))
      else none
  | _ => none

/-- `Number.isInteger(data)`. -/
def Json.isIntegerNum : Json → Bool
  | .num q => q.den == 1
  | _ => false

/-- `typeof`-based type tag of line 644:
`Array.isArray(data) ? "array" : data === null ? "null" : typeof data`. -/
def Json.jsTypeTag : Json → String
  | .arr _ => "array"
  | .null => "null"
  | .obj _ => "object"
  | .str _ => "string"
  | .num _ => "number"
  | .bool _ => "boolean"

/-- String escaping of `JSON.stringify` (enum error messages only; control
characters other than the three common ones would be `\u`-escaped). -/
def escapeJsonChar (c : Char) : String :=
  if c = '"' then "\\\""
  else if c = '\\' then "\\\\"
  else if c = '\n' then "\\n"
  else if c = '\t' then "\\t"
  else if c = '\r' then "\\r"
  else String.singleton c

/-- `JSON.stringify(value)` (no indentation), used for the `enum` error
message (line 639). -/
def Json.stringify : Json → String
  | .null => "null"
  | .bool true => "true"
  | .bool false => "false"
  | .num q => ratToString q
  | .str s => "\"" ++ String.join (s.data.map escapeJsonChar) ++ "\""
  | .arr elems =>
      "[" ++ String.intercalate "," (elems.attach.map (fun ⟨e, _⟩ => Json.stringify e)) ++ "]"
  | .obj fields =>
      "\x7b" ++
        String.intercalate ","
          (fields.attach.map (fun ⟨f, _⟩ =>
            "\"" ++ String.join (f.1.data.map escapeJsonChar) ++ "\":" ++ Json.stringify f.2)) ++
        "\x7d"
decreasing_by
  all_goals simp_wf
  · rename_i h
    have := List.sizeOf_lt_of_mem h
    omega
  · rename_i h
    have h1 := List.sizeOf_lt_of_mem h
    obtain ⟨k, v⟩ := f
    simp at h1 ⊢
    omega

/-- A regex engine for the `pattern` keyword: `none` models a pattern on
which `new RegExp` throws (caught at line 665), `some test` the compiled
regex's `test`. The validator's behaviour on the schemas of the claims is
independent of it. -/
def noRegex : String → Option (String → Bool) := fun _ => none

/-- The checks after the `$ref` branch of `validateSchemaNode` (lines
622-705): `allOf`, `if`/`then`, `const`, `enum`, `type` (returning early on
a mismatch), string, array and object constraints, appended in source
order. `recurse` is the sub-schema recursion (`validateSchemaNode` at the
remaining fuel). -/
def validateSchemaChecks (recurse : Json → Json → String → Json → List String)
    (re : String → Option (String → Bool))
    (schema data : Json) (path : String) (rootSchema : Json) : List String :=
  let errAllOf :=
    match schema.getField "allOf" with
    | some (Json.arr subs) =>
        subs.foldl (fun acc sub => acc ++ recurse sub data path rootSchema) []
    | _ => []
  let errIfThen :=
    match schema.getField "if", schema.getField "then" with
    | some iv, some tv =>
        if iv.truthy && tv.truthy &&
            (recurse iv data "$" rootSchema).isEmpty then
          recurse tv data path rootSchema
        else []
    | _, _ => []
  let errConst :=
    match schema.getField "const" with
    | some c =>
        if data == c then [] else [createValidationError path "does not match const value"]
    | none => []
  let errEnum :=
    match schema.getField "enum" with
    | some (Json.arr entries) =>
        if entries.any (fun entry => entry == data) then []
        else
          [createValidationError path
            ("must be one of: " ++ String.intercalate ", " (entries.map Json.stringify))]
    | _ => []
  let head := errAllOf ++ errIfThen ++ errConst ++ errEnum
  let typeOutcome :=
    match schema.getField "type" with
    | some tv =>
        if tv.truthy then
          let actualType := data.jsTypeTag
          let typeMatches :=
            match tv with
            | .str t =>
                t == actualType || (t == "number" && actualType == "number") ||
                  (t == "integer" && data.isIntegerNum)
            | _ => false
          if typeMatches then Option.none
          else
            some (createValidationError path
              ("expected type " ++ tv.jsToString ++ ", got " ++ actualType))
        else Option.none
    | none => Option.none
  match typeOutcome with
  | some typeErr => head ++ [typeErr]
  | none =>
    let errStr :=
      match data with
      | .str s =>
          (match schema.getField "minLength" with
           | some (Json.num m) =>
               if (s.length : ℚ) < m then
                 [createValidationError path ("must have minLength " ++ ratToString m)]
               else []
           | _ => []) ++
          (match schema.getField "pattern" with
           | some pv =>
               if pv.truthy then
                 match re pv.jsToString with
                 | some test =>
                     if test s then []
                     else [createValidationError path ("does not match pattern " ++ pv.jsToString)]
                 | none => [createValidationError path ("invalid pattern " ++ pv.jsToString)]
               else []
           | none => [])
      | _ => []
    let errArr :=
      match data with
      | .arr items =>
          (match schema.getField "minItems" with
           | some (Json.num m) =>
               if (items.length : ℚ) < m then
                 [createValidationError path ("must have minItems " ++ ratToString m)]
               else []
           | _ => []) ++
          (match schema.getField "items" with
           | some iv =>
               if iv.truthy then
                 items.enum.foldl
                   (fun acc p =>
                     acc ++ recurse iv p.2 (path ++ "[" ++ toString p.1 ++ "]") rootSchema)
                   []
               else []
           | none => [])
      | _ => []
    let errObj :=
      match data with
      | .obj fields =>
          let required :=
            match schema.getField "required" with
            | some (Json.arr keys) => keys
            | _ => []
          let props : List (String × Json) :=
            match schema.getField "properties" with
            | some (Json.obj ps) => ps
            | some (Json.arr es) => es.enum.map (fun p => (toString p.1, p.2))
            | _ => []
          (required.foldl
            (fun acc keyJson =>
              let key := keyJson.jsToString
              if fields.any (fun f => f.1 == key) then acc
              else acc ++ [createValidationError path ("missing required property \"" ++ key ++ "\"")])
            []) ++
          (props.foldl
            (fun acc kp =>
              match fields.find? (fun f => f.1 == kp.1) with
              | some f => acc ++ recurse kp.2 f.2 (path ++ "." ++ kp.1) rootSchema
              | none => acc)
            []) ++
          (match schema.getField "additionalProperties" with
           | some (Json.bool false) =>
               fields.foldl
                 (fun acc f =>
                   if props.any (fun p => p.1 == f.1) then acc
                   else acc ++ [createValidationError path ("unexpected property \"" ++ f.1 ++ "\"")])
                 []
           | _ => [])
      | _ => []
    head ++ errStr ++ errArr ++ errObj

/-- `validateSchemaNode(schema, data, path, rootSchema, errors)` (lines
609-706), returning the errors it appends, in order. The recursion is
fuelled: JavaScript's recursion is bounded by the engine stack, and a
cyclic `$ref` crashes the evaluation there (the exception is caught by the
gate wrapper); fuel exhaustion is modelled as a validation error. All
claims are settled at schemas far shallower than the fuel. -/
def validateSchemaNode (re : String → Option (String → Bool)) :
    Nat → Json → Json → String → Json → List String
  | 0, _, _, path, _ => [createValidationError path "maximum recursion depth exceeded"]
  | fuel + 1, schema, data, path, rootSchema =>
    if ¬ schema.isObjectLike then []
    else
      match schema.getField "$ref" with
      | some refv =>
        if refv.truthy then
          match resolveSchemaRef rootSchema refv with
          | some resolved =>
              if resolved.truthy then
                validateSchemaNode re fuel resolved data path rootSchema
              else [createValidationError path ("unresolved $ref " ++ refv.jsToString)]
          | none => [createValidationError path ("unresolved $ref " ++ refv.jsToString)]
        else
          validateSchemaChecks (fun s d p r => validateSchemaNode re fuel s d p r)
            re schema data path rootSchema
      | none =>
          validateSchemaChecks (fun s d p r => validateSchemaNode re fuel s d p r)
            re schema data path rootSchema

/-- Fuel deeper than any schema in play. -/
def validatorFuel : Nat := 1000

/-- `matchesSchema(schema, data, rootSchema)` (lines 603-607). -/
def matchesSchema (re : String → Option (String → Bool)) (schema data rootSchema : Json) : Bool :=
  (validateSchemaNode re validatorFuel schema data "$" rootSchema).isEmpty

/-- `validateJsonAgainstSchema(schema, data)` (lines 708-712). -/
def validateJsonAgainstSchema (re : String → Option (String → Bool))
    (schema data : Json) : List String :=
  validateSchemaNode re validatorFuel schema data "$" schema

mutual

/-- Order-insensitive deep equality of JSON values, as the specification's
"deep equality ... irrespective of the order in which their keys appear"
reads: objects are equal when each field of one has a deep-equal field of
the same name in the other, arrays element-wise in order. -/
def Json.deepEq : Json → Json → Bool
  | .null, .null => true
  | .bool a, .bool b => a == b
  | .num a, .num b => a == b
  | .str a, .str b => a == b
  | .arr as, .arr bs => Json.deepEqList as bs
  | .obj as, .obj bs =>
      Json.deepEqInto as bs && bs.all (fun g => as.any (fun f => f.1 == g.1))
  | _, _ => false

def Json.deepEqList : List Json → List Json → Bool
  | [], [] => true
  | a :: as, b :: bs => Json.deepEq a b && Json.deepEqList as bs
  | _, _ => false

def Json.deepEqInto : List (String × Json) → List (String × Json) → Bool
  | [], _ => true
  | (k, v) :: as, bs =>
      (match bs.find? (fun g => g.1 == k) with
       | some g => Json.deepEq v g.2
       | none => false) && Json.deepEqInto as bs

end

/-- The schema of the specification's validator examples:
`\x7btype:"object", required:["a"], properties:\x7ba:\x7btype:"string",
minLength:3\x7d\x7d\x7d`. -/
def exampleSchemaA : Json :=
  .obj [("type", .str "object"), ("required", .arr [.str "a"]),
        ("properties", .obj [("a", .obj [("type", .str "string"), ("minLength", .num 3)])])]

/-- **C7.** (counterexample) The claim's third example is wrong on the
code: against `\x7b"a":"ok"\x7d` the validator yields a minLength error,
not an empty list, because `"ok"` has length 2 < 3. -/
theorem schema_validator_ok_example_fails :
    validateJsonAgainstSchema noRegex exampleSchemaA (Json.obj [("a", Json.str "ok")]) ≠ [] := by
  rw [validateJsonAgainstSchema, show validatorFuel = 999 + 1 from rfl]
  rw [validateSchemaNode]
  simp only [exampleSchemaA]
  simp [validateSchemaChecks, Json.getField, Json.truthy, Json.isObjectLike,
    Json.jsToString, ratToString, Json.jsTypeTag, createValidationError, Json.isIntegerNum]
  rw [show (999 : Nat) = 998 + 1 from rfl, validateSchemaNode]
  simp [validateSchemaChecks, Json.getField, Json.truthy, Json.isObjectLike,
    Json.jsToString, ratToString, Json.jsTypeTag, createValidationError, Json.isIntegerNum]
  decide

/-- **C7.** (as amended) Against the schema `\x7btype:"object",
required:["a"], properties:\x7ba:\x7btype:"string", minLength:3\x7d\x7d\x7d`
the validator yields exactly one error (the minLength violation) for
`\x7b"a":"hi"\x7d`, exactly one error (the missing required property) for
`\x7b\x7d`, an empty error list for data whose `"a"` is at least three
characters such as `\x7b"a":"okay"\x7d` — but one minLength error for the
claim's `\x7b"a":"ok"\x7d`, whose value has only two characters — and the
data is valid iff the accumulated error list is empty. -/
theorem schema_validator_examples :
    (validateJsonAgainstSchema noRegex exampleSchemaA (Json.obj [("a", Json.str "hi")])
      = ["$.a: must have minLength 3"]) ∧
    (validateJsonAgainstSchema noRegex exampleSchemaA (Json.obj [])
      = ["$: missing required property \"a\""]) ∧
    (validateJsonAgainstSchema noRegex exampleSchemaA (Json.obj [("a", Json.str "okay")])
      = []) ∧
    (validateJsonAgainstSchema noRegex exampleSchemaA (Json.obj [("a", Json.str "ok")])
      = ["$.a: must have minLength 3"]) ∧
    (∀ (re : String → Option (String → Bool)) (schema data : Json),
      matchesSchema re schema data schema = true ↔ validateJsonAgainstSchema re schema data = []) := by
  refine ⟨?_, ?_, ?_, ?_, ?_⟩
  · rw [validateJsonAgainstSchema, show validatorFuel = 999 + 1 from rfl]
    rw [validateSchemaNode]
    simp only [exampleSchemaA]
    simp [validateSchemaChecks, Json.getField, Json.truthy, Json.isObjectLike,
      Json.jsToString, ratToString, Json.jsTypeTag, createValidationError, Json.isIntegerNum]
    rw [show (999 : Nat) = 998 + 1 from rfl, validateSchemaNode]
    simp [validateSchemaChecks, Json.getField, Json.truthy, Json.isObjectLike,
      Json.jsToString, ratToString, Json.jsTypeTag, createValidationError, Json.isIntegerNum]
    rfl
  · rw [validateJsonAgainstSchema, show validatorFuel = 999 + 1 from rfl]
    rw [validateSchemaNode]
    simp only [exampleSchemaA]
    simp [validateSchemaChecks, Json.getField, Json.truthy, Json.isObjectLike,
      Json.jsToString, ratToString, Json.jsTypeTag, createValidationError, Json.isIntegerNum]
  · rw [validateJsonAgainstSchema, show validatorFuel = 999 + 1 from rfl]
    rw [validateSchemaNode]
    simp only [exampleSchemaA]
    simp [validateSchemaChecks, Json.getField, Json.truthy, Json.isObjectLike,
      Json.jsToString, ratToString, Json.jsTypeTag, createValidationError, Json.isIntegerNum]
    rw [show (999 : Nat) = 998 + 1 from rfl, validateSchemaNode]
    simp [validateSchemaChecks, Json.getField, Json.truthy, Json.isObjectLike,
      Json.jsToString, ratToString, Json.jsTypeTag, createValidationError, Json.isIntegerNum]
    decide
  · rw [validateJsonAgainstSchema, show validatorFuel = 999 + 1 from rfl]
    rw [validateSchemaNode]
    simp only [exampleSchemaA]
    simp [validateSchemaChecks, Json.getField, Json.truthy, Json.isObjectLike,
      Json.jsToString, ratToString, Json.jsTypeTag, createValidationError, Json.isIntegerNum]
    rw [show (999 : Nat) = 998 + 1 from rfl, validateSchemaNode]
    simp [validateSchemaChecks, Json.getField, Json.truthy, Json.isObjectLike,
      Json.jsToString, ratToString, Json.jsTypeTag, createValidationError, Json.isIntegerNum]
    rfl
  · intro re schema data
    rw [matchesSchema, validateJsonAgainstSchema, List.isEmpty_iff]

/-- **C9.** (counterexample) `const` compares `JSON.stringify` outputs
(line 633), which preserve object key order: the data
`\x7b"b":2,"a":1\x7d` is deeply equal to the const value
`\x7b"a":1,"b":2\x7d` irrespective of key order, yet the validator
rejects it — so "deep equality ... irrespective of the order in which
their keys appear" is false on the code. -/
theorem const_key_order_counterexample :
    Json.deepEq (Json.obj [("b", Json.num 2), ("a", Json.num 1)])
        (Json.obj [("a", Json.num 1), ("b", Json.num 2)]) = true ∧
    validateJsonAgainstSchema noRegex
        (Json.obj [("const", Json.obj [("a", Json.num 1), ("b", Json.num 2)])])
        (Json.obj [("b", Json.num 2), ("a", Json.num 1)]) ≠ [] := by
  constructor
  · simp [Json.deepEq, Json.deepEqInto, Json.deepEqList]
  · rw [validateJsonAgainstSchema, show validatorFuel = 999 + 1 from rfl]
    rw [validateSchemaNode]
    simp [validateSchemaChecks, Json.getField, Json.truthy, Json.isObjectLike,
      Json.jsToString, ratToString, Json.jsTypeTag, createValidationError, Json.isIntegerNum,
      Json.beq]

/-- **C9.** (as amended) `const` accepts the data iff it is structurally
identical to the const value — deep equality with object key order
significant, which is what comparing `JSON.stringify` outputs decides —
and `enum` accepts iff the data is structurally identical to at least one
member of the enum array; deeply equal objects whose keys appear in a
different order are rejected. -/
theorem const_enum_serialization_equality (c d : Json) (es : List Json) :
    (validateJsonAgainstSchema noRegex (Json.obj [("const", c)]) d = [] ↔ d = c) ∧
    (validateJsonAgainstSchema noRegex (Json.obj [("enum", Json.arr es)]) d = [] ↔ d ∈ es) := by
  constructor
  · rw [validateJsonAgainstSchema, show validatorFuel = 999 + 1 from rfl]
    rw [validateSchemaNode]
    cases d <;>
      simp [validateSchemaChecks, Json.getField, Json.truthy, Json.isObjectLike,
        Json.jsToString, ratToString, Json.jsTypeTag, createValidationError,
        Json.isIntegerNum]
  · rw [validateJsonAgainstSchema, show validatorFuel = 999 + 1 from rfl]
    rw [validateSchemaNode]
    cases d <;>
      simp [validateSchemaChecks, Json.getField, Json.truthy, Json.isObjectLike,
        Json.jsToString, ratToString, Json.jsTypeTag, createValidationError,
        Json.isIntegerNum]

/-! ## Gate evaluation (src/bin/compound-quality.mjs, lines 714-878) -/

/-- A gate definition as the effective configuration holds it: a JSON
object whose fields are all optional (the "optional field grab-bag" of the
source); absent fields are `none`. -/
structure GateEntry where
  id : Option String := none
  type : Option String := none
  required : Option Bool := none
  enabled : Option Bool := none
  forEachTaskId : Option Bool := none
  command : Option String := none
  paths : Option (List String) := none
  path : Option String := none
  file : Option String := none
  pattern : Option String := none
  flags : Option String := none
  minMatches : Option ℚ := none
  schemaFile : Option String := none
  dataFile : Option String := none
deriving Repr

/-- What `runCommand` (lines 378-394) returns for a shell command:
`spawnSync` with a shell never throws for a string command; a `null`
status reads as exit code 1. -/
structure CmdOutcome where
  exitCode : Int
  stdout : String
  stderr : String

/-- A compiled JavaScript regex: `test` is `RegExp.prototype.test`,
`countMatches` the length of `content.match(regex) ?? []` for the global
regex the `regex` gate builds. -/
structure JsRegex where
  test : String → Bool
  countMatches : String → Nat

/-- The process environment a gate evaluation reads: the clock, the file
system, the command runner, regex compilation (`Except.error` carries the
`SyntaxError` message `new RegExp` throws) and `JSON.parse`
(`Except.error` carries `String(error)` of the thrown `SyntaxError`).
Paths are opaque keys: joining against the repository root is the
identity here. -/
structure Env where
  now : Int
  fileExists : String → Bool
  readFileContent : String → String
  runCmd : String → CmdOutcome
  newRegExp : Option String → String → Except String JsRegex
  parseJson : String → Except String Json

/-- The interpolation/evaluation context built by `runVerify`
(lines 1366-1372). -/
structure VerifyContext where
  qualityDir : String
  commands : List (String × String)
  taskId : String
  taskIds : List String
  verifyJson : Json := Json.null

/-- The context as the JSON object the template interpolation navigates. -/
def VerifyContext.toJson (c : VerifyContext) : Json :=
  Json.obj
    [("qualityDir", Json.str c.qualityDir),
     ("commands", Json.obj (c.commands.map (fun p => (p.1, Json.str p.2)))),
     ("taskId", Json.str c.taskId),
     ("taskIds", Json.arr (c.taskIds.map Json.str)),
     ("verify", c.verifyJson)]

/-- `resolvePathFromRoot(root, pathLike)` (lines 396-399): empty or absent
input yields `""`; otherwise the path itself (absolutization against the
root is not modelled — paths are opaque keys of `Env`). -/
def resolvePathFromRoot (pathLike : Option String) : String :=
  match pathLike with
  | none => ""
  | some s => if s = "" then "" else s

/-- `truncateText(input, maxLength)` (lines 401-405). -/
def truncateText (input : String) (maxLength : Nat) : String :=
  if input.length ≤ maxLength then input
  else input.take maxLength ++ "\n...[truncated " ++ toString (input.length - maxLength) ++ " chars]"

/-- The regex engine the `json_schema` gate hands to the validator:
`new RegExp(pattern)` built from the environment. -/
def envRegex (env : Env) : String → Option (String → Bool) :=
  fun pat =>
    match env.newRegExp (some pat) "" with
    | Except.ok r => some r.test
    | Except.error _ => none

/-- `gate.required !== false` (line 716). -/
def gateRequired (gate : GateEntry) : Bool := gate.required != some false

/-- `gate.forEachTaskId ? context.taskIds : [context.taskId ?? ""]`
(line 717). -/
def targetTaskIdsOf (gate : GateEntry) (ctx : VerifyContext) : List String :=
  if gate.forEachTaskId == some true then ctx.taskIds else [ctx.taskId]

/-- The `command` / `custom_script` branch (lines 720-735). An absent
`gate.command` stays `undefined` through interpolation and makes
`spawnSync` throw a `TypeError` (modelled with that error's message). -/
def commandGateResult (env : Env) (gate : GateEntry) (ctx : VerifyContext) :
    Except String GateResult :=
  match interpOpt gate.command ctx.toJson with
  | none => Except.error "The \"file\" argument must be of type string. Received undefined"
  | some command =>
      let result := env.runCmd command
      Except.ok
        { id := gate.id, type := gate.type, required := gateRequired gate,
          status := if result.exitCode = 0 then GateStatus.pass else GateStatus.fail,
          message := if result.exitCode = 0 then "command passed" else "command failed",
          command := some command, exitCode := some result.exitCode,
          stdout := some (truncateText result.stdout 20000),
          stderr := some (truncateText result.stderr 20000) }

/-- The `file_exists` branch (lines 737-763). -/
def fileExistsGateResult (env : Env) (gate : GateEntry) (ctx : VerifyContext) :
    Except String GateResult :=
  let configured : List String :=
    match gate.paths with
    | some ps => ps
    | none =>
        match gate.path with
        | some p => if p = "" then [] else [p]
        | none => []
  let targetTaskIds := targetTaskIdsOf gate ctx
  let taskList := if targetTaskIds.length > 0 then targetTaskIds else [""]
  let pathEntries := taskList.flatMap (fun taskId =>
    configured.map (fun entry =>
      (taskId, resolvePathFromRoot (interpOpt (some entry) ({ ctx with taskId := taskId }).toJson))))
  let missing := pathEntries.filter (fun e => !(env.fileExists e.2))
  Except.ok
    { id := gate.id, type := gate.type, required := gateRequired gate,
      status := if missing.isEmpty then GateStatus.pass else GateStatus.fail,
      message :=
        if missing.isEmpty then "all files exist (" ++ toString pathEntries.length ++ ")"
        else "missing files: " ++ String.intercalate ", " (missing.map (fun e => e.2)),
      fileChecks := pathEntries.map (fun e =>
        { taskId := if e.1 = "" then none else some e.1, path := e.2,
          existsOnDisk := env.fileExists e.2 }) }

/-- The `regex` branch (lines 765-794); an invalid pattern makes
`new RegExp` throw. -/
def regexGateResult (env : Env) (gate : GateEntry) (ctx : VerifyContext) :
    Except String GateResult :=
  let filePath := resolvePathFromRoot (interpOpt gate.file ctx.toJson)
  if !(env.fileExists filePath) then
    Except.ok
      { id := gate.id, type := gate.type, required := gateRequired gate,
        status := GateStatus.fail, message := "file not found: " ++ filePath }
  else
    let content := env.readFileContent filePath
    let flags := match gate.flags with | some s => s | none => "g"
    match env.newRegExp gate.pattern flags with
    | Except.error e => Except.error e
    | Except.ok regex =>
        let matchCount := regex.countMatches content
        let minMatches : ℚ := match gate.minMatches with | some m => m | none => 1
        let passed := (matchCount : ℚ) ≥ minMatches
        Except.ok
          { id := gate.id, type := gate.type, required := gateRequired gate,
            status := if passed then GateStatus.pass else GateStatus.fail,
            message :=
              if passed then "pattern matched " ++ toString matchCount ++ " time(s)"
              else "pattern matched " ++ toString matchCount ++ " time(s), expected >= " ++
                ratToString minMatches,
            file := some filePath }

/-- The `json_schema` branch (lines 796-858); an unparsable schema file
makes `JSON.parse` throw, an unparsable or missing data file only marks
that task's check invalid. -/
def jsonSchemaGateResult (env : Env) (gate : GateEntry) (ctx : VerifyContext) :
    Except String GateResult :=
  let schemaPath := resolvePathFromRoot (interpOpt gate.schemaFile ctx.toJson)
  if !(env.fileExists schemaPath) then
    Except.ok
      { id := gate.id, type := gate.type, required := gateRequired gate,
        status := GateStatus.fail, message := "schema file not found: " ++ schemaPath }
  else
    match env.parseJson (env.readFileContent schemaPath) with
    | Except.error e => Except.error e
    | Except.ok schema =>
        let targetTaskIds := targetTaskIdsOf gate ctx
        let taskList := if targetTaskIds.length > 0 then targetTaskIds else [""]
        let checks : List SchemaCheck := taskList.map (fun taskId =>
          let dataPath :=
            resolvePathFromRoot (interpOpt gate.dataFile ({ ctx with taskId := taskId }).toJson)
          if !(env.fileExists dataPath) then
            { taskId := if taskId = "" then none else some taskId, file := dataPath,
              valid := false, errors := ["file not found"] }
          else
            match env.parseJson (env.readFileContent dataPath) with
            | Except.error e =>
                { taskId := if taskId = "" then none else some taskId, file := dataPath,
                  valid := false, errors := ["invalid JSON: " ++ e] }
            | Except.ok parsed =>
                let errors := validateJsonAgainstSchema (envRegex env) schema parsed
                { taskId := if taskId = "" then none else some taskId, file := dataPath,
                  valid := errors.isEmpty, errors := errors })
        let failed := checks.filter (fun c => !c.valid)
        Except.ok
          { id := gate.id, type := gate.type, required := gateRequired gate,
            status := if failed.isEmpty then GateStatus.pass else GateStatus.fail,
            message :=
              if failed.isEmpty then
                "schema validation passed (" ++ toString checks.length ++ " file(s))"
              else
                "schema validation failed (" ++ toString failed.length ++ "/" ++
                  toString checks.length ++ " file(s))",
            schemaFile := some schemaPath, schemaChecks := checks }

/-- The fallback result for an unrecognized gate type (lines 860-867);
the template `$\x7bgate.type\x7d` renders an absent type as `undefined`. -/
def unsupportedGateResult (gate : GateEntry) : GateResult :=
  { id := gate.id, type := gate.type, required := gateRequired gate,
    status := GateStatus.fail,
    message := "unsupported gate type \"" ++
      (match gate.type with | some t => t | none => "undefined") ++ "\"" }

/-- The body of the `try` of `evaluateVerifyGate` (lines 719-867):
`Except.error` is a thrown exception, carrying its message. -/
def evalVerifyGateInner (env : Env) (gate : GateEntry) (ctx : VerifyContext) :
    Except String GateResult :=
  if gate.type == some "command" || gate.type == some "custom_script" then
    commandGateResult env gate ctx
  else if gate.type == some "file_exists" then
    fileExistsGateResult env gate ctx
  else if gate.type == some "regex" then
    regexGateResult env gate ctx
  else if gate.type == some "json_schema" then
    jsonSchemaGateResult env gate ctx
  else
    Except.ok (unsupportedGateResult gate)

/-- `evaluateVerifyGate(root, gate, context)` (lines 714-878): the `catch`
converts any thrown exception into a `fail` result carrying the error
message. -/
def evaluateVerifyGate (env : Env) (gate : GateEntry) (ctx : VerifyContext) : GateResult :=
  match evalVerifyGateInner env gate ctx with
  | Except.ok r => r
  | Except.error e =>
      { id := gate.id, type := gate.type, required := gateRequired gate,
        status := GateStatus.fail, message := e }

/-! ## The verify loop over gates (src/bin/compound-quality.mjs, lines 1374-1398) -/

/-- The waived copy of a failing result (lines 1383-1393). -/
def gateWaivedResult (r : GateResult) (w : Waiver) : GateResult :=
  { r with
    status := GateStatus.waived,
    waiver := some
      { gateId := match w.gateId with | some g => some g | none => r.id,
        taskId := w.taskId,
        reason := w.reason.getD "",
        approvedBy := w.approvedBy.getD "",
        expiresAt := w.expiresAt } }

/-- Lines 1380-1396: a failing result is replaced by its waived copy when
a waiver matches; the `required` flag is not consulted. -/
def applyWaivers (env : Env) (waivers : List Waiver) (taskIds : List String)
    (r : GateResult) : GateResult :=
  if r.status = GateStatus.fail then
    match findMatchingWaiver waivers r taskIds env.now with
    | some w => gateWaivedResult r w
    | none => r
  else r

/-- An entry of the effective `gates` array: either not an object at all
(skipped by line 1376) or a gate object. -/
inductive RawGateEntry where
  | notObject
  | gate (g : GateEntry)

/-- JavaScript truthiness of `gate.id` / `gate.type` in the typed model:
absent or empty-string values are falsy (line 1377). -/
def truthyId (o : Option String) : Bool :=
  match o with
  | some s => s ≠ ""
  | none => false

/-- The gate loop of `runVerify` (lines 1374-1398): non-objects, gates
without a truthy `id` or `type`, and disabled gates produce no result at
all; every other gate is evaluated and, on failure, run through the
waiver list. -/
def processGates (env : Env) (ctx : VerifyContext) (waivers : List Waiver) :
    List RawGateEntry → List GateResult
  | [] => []
  | RawGateEntry.notObject :: rest => processGates env ctx waivers rest
  | RawGateEntry.gate g :: rest =>
      if !(truthyId g.id) || !(truthyId g.type) then processGates env ctx waivers rest
      else if g.enabled == some false then processGates env ctx waivers rest
      else
        applyWaivers env waivers ctx.taskIds (evaluateVerifyGate env g ctx) ::
          processGates env ctx waivers rest

/-! ## Policy-pack gate merge (src/bin/compound-quality.mjs, lines 455-467) -/

/-- `byId.set(key, value)` on a JavaScript `Map`: replacing an existing key
keeps its position, a new key is appended. -/
def upsertGate (acc : List (String × GateEntry)) (key : String) (value : GateEntry) :
    List (String × GateEntry) :=
  if acc.any (fun p => p.1 == key) then
    acc.map (fun p => if p.1 == key then (key, value) else p)
  else acc ++ [(key, value)]

/-- The object spread `\x7b...existing, ...gate\x7d` (line 464), field by
field: the incoming gate's field when present, else the existing one. -/
def spreadGate (existing incoming : GateEntry) : GateEntry :=
  { id := incoming.id <|> existing.id,
    type := incoming.type <|> existing.type,
    required := incoming.required <|> existing.required,
    enabled := incoming.enabled <|> existing.enabled,
    forEachTaskId := incoming.forEachTaskId <|> existing.forEachTaskId,
    command := incoming.command <|> existing.command,
    paths := incoming.paths <|> existing.paths,
    path := incoming.path <|> existing.path,
    file := incoming.file <|> existing.file,
    pattern := incoming.pattern <|> existing.pattern,
    flags := incoming.flags <|> existing.flags,
    minMatches := incoming.minMatches <|> existing.minMatches,
    schemaFile := incoming.schemaFile <|> existing.schemaFile,
    dataFile := incoming.dataFile <|> existing.dataFile }

/-- `mergeGates(baseGates, patchGates)` (lines 455-467): base gates keyed
by id (id-less gates dropped), patch gates shallow-patched onto the
existing record, union of ids in first-appearance order. -/
def mergeGates (baseGates patchGates : List GateEntry) : List GateEntry :=
  let m1 := baseGates.foldl
    (fun m g => if truthyId g.id then upsertGate m (g.id.getD "") g else m) []
  let m2 := patchGates.foldl
    (fun m g =>
      if truthyId g.id then
        let key := g.id.getD ""
        let existing := match m.find? (fun p => p.1 == key) with
          | some p => p.2
          | none => {}
        upsertGate m key (spreadGate existing g)
      else m)
    m1
  m2.map (fun p => p.2)

theorem commandGateResult_status (env : Env) (gate : GateEntry) (ctx : VerifyContext) :
    ∀ r, commandGateResult env gate ctx = Except.ok r →
      r.status = GateStatus.pass ∨ r.status = GateStatus.fail := by
  intro r h
  unfold commandGateResult at h
  cases hc : interpOpt gate.command ctx.toJson with
  | none => rw [hc] at h; exact Except.noConfusion h
  | some cmd =>
      rw [hc] at h
      dsimp only at h
      injection h with h
      subst h
      exact ite_eq_or_eq _ _ _

theorem fileExistsGateResult_status (env : Env) (gate : GateEntry) (ctx : VerifyContext) :
    ∀ r, fileExistsGateResult env gate ctx = Except.ok r →
      r.status = GateStatus.pass ∨ r.status = GateStatus.fail := by
  intro r h
  unfold fileExistsGateResult at h
  dsimp only at h
  injection h with h
  subst h
  exact ite_eq_or_eq _ _ _

theorem regexGateResult_status (env : Env) (gate : GateEntry) (ctx : VerifyContext) :
    ∀ r, regexGateResult env gate ctx = Except.ok r →
      r.status = GateStatus.pass ∨ r.status = GateStatus.fail := by
  intro r h
  unfold regexGateResult at h
  dsimp only at h
  by_cases hf : (!(env.fileExists (resolvePathFromRoot (interpOpt gate.file ctx.toJson)))) = true
  · rw [if_pos hf] at h
    injection h with h
    subst h
    right
    rfl
  · rw [if_neg hf] at h
    cases hre : env.newRegExp gate.pattern (match gate.flags with | some s => s | none => "g") with
    | error e => rw [hre] at h; exact Except.noConfusion h
    | ok regex =>
        rw [hre] at h
        dsimp only at h
        injection h with h
        subst h
        exact ite_eq_or_eq _ _ _

theorem jsonSchemaGateResult_status (env : Env) (gate : GateEntry) (ctx : VerifyContext) :
    ∀ r, jsonSchemaGateResult env gate ctx = Except.ok r →
      r.status = GateStatus.pass ∨ r.status = GateStatus.fail := by
  intro r h
  unfold jsonSchemaGateResult at h
  dsimp only at h
  by_cases hf : (!(env.fileExists (resolvePathFromRoot (interpOpt gate.schemaFile ctx.toJson)))) = true
  · rw [if_pos hf] at h
    injection h with h
    subst h
    right
    rfl
  · rw [if_neg hf] at h
    cases hp : env.parseJson
        (env.readFileContent (resolvePathFromRoot (interpOpt gate.schemaFile ctx.toJson))) with
    | error e => rw [hp] at h; exact Except.noConfusion h
    | ok schema =>
        rw [hp] at h
        dsimp only at h
        injection h with h
        subst h
        exact ite_eq_or_eq _ _ _

/-- **C8.** `evaluateVerifyGate` is total: for every gate and context it
returns a gate result whose status is `pass` or `fail` (never aborting the
remaining gates); any exception thrown during per-type evaluation is
converted into a `fail` result whose message is the error text; and an
unrecognized gate type yields the fail-closed "unsupported gate type"
result. -/
theorem evaluateVerifyGate_total (env : Env) (gate : GateEntry) (ctx : VerifyContext) :
    ((evaluateVerifyGate env gate ctx).status = GateStatus.pass ∨
      (evaluateVerifyGate env gate ctx).status = GateStatus.fail) ∧
    (∀ e, evalVerifyGateInner env gate ctx = Except.error e →
      evaluateVerifyGate env gate ctx =
        { id := gate.id, type := gate.type, required := gateRequired gate,
          status := GateStatus.fail, message := e }) ∧
    (gate.type ∉ [some "command", some "custom_script", some "file_exists",
        some "regex", some "json_schema"] →
      evaluateVerifyGate env gate ctx = unsupportedGateResult gate ∧
      (evaluateVerifyGate env gate ctx).status = GateStatus.fail ∧
      (evaluateVerifyGate env gate ctx).message = "unsupported gate type \"" ++
        (match gate.type with | some t => t | none => "undefined") ++ "\"") := by
  refine ⟨?_, ?_, ?_⟩
  · unfold evaluateVerifyGate
    cases hinner : evalVerifyGateInner env gate ctx with
    | error e => right; rfl
    | ok r =>
        unfold evalVerifyGateInner at hinner
        by_cases h1 : (gate.type == some "command" || gate.type == some "custom_script") = true
        · rw [if_pos h1] at hinner
          exact commandGateResult_status env gate ctx r hinner
        · rw [if_neg h1] at hinner
          by_cases h2 : (gate.type == some "file_exists") = true
          · rw [if_pos h2] at hinner
            exact fileExistsGateResult_status env gate ctx r hinner
          · rw [if_neg h2] at hinner
            by_cases h3 : (gate.type == some "regex") = true
            · rw [if_pos h3] at hinner
              exact regexGateResult_status env gate ctx r hinner
            · rw [if_neg h3] at hinner
              by_cases h4 : (gate.type == some "json_schema") = true
              · rw [if_pos h4] at hinner
                exact jsonSchemaGateResult_status env gate ctx r hinner
              · rw [if_neg h4] at hinner
                injection hinner with hinner
                rw [← hinner]
                right
                rfl
  · intro e he
    unfold evaluateVerifyGate
    rw [he]
  · intro hnot
    simp only [List.mem_cons, List.not_mem_nil, or_false, not_or] at hnot
    obtain ⟨n1, n2, n3, n4, n5⟩ := hnot
    have hb1 : (gate.type == some "command") = false := beq_eq_false_iff_ne.mpr n1
    have hb2 : (gate.type == some "custom_script") = false := beq_eq_false_iff_ne.mpr n2
    have hb3 : (gate.type == some "file_exists") = false := beq_eq_false_iff_ne.mpr n3
    have hb4 : (gate.type == some "regex") = false := beq_eq_false_iff_ne.mpr n4
    have hb5 : (gate.type == some "json_schema") = false := beq_eq_false_iff_ne.mpr n5
    have hres : evaluateVerifyGate env gate ctx = unsupportedGateResult gate := by
      unfold evaluateVerifyGate evalVerifyGateInner
      rw [hb1, hb2, hb3, hb4, hb5]
      simp
    refine ⟨hres, ?_, ?_⟩ <;> rw [hres] <;> rfl

/-- **C5.** (counterexample) A non-required gate that fails evaluation is
waived by a matching waiver: the `required` flag is never consulted before
the waiver list (line 1380 tests only the status), contradicting the
claimed `fail and required` precondition of the waived transition. The
concrete run: a disabled-`required` gate of unknown type fails, a
wildcard waiver matches, and the recorded status is `waived`, not `fail`. -/
theorem nonrequired_gate_waived_counterexample :
    (evaluateVerifyGate
        { now := 0, fileExists := fun _ => false, readFileContent := fun _ => "",
          runCmd := fun _ => { exitCode := 1, stdout := "", stderr := "" },
          newRegExp := fun _ _ => Except.error "SyntaxError",
          parseJson := fun _ => Except.error "SyntaxError" }
        { id := some "g1", type := some "nope", required := some false }
        { qualityDir := ".quality", commands := [], taskId := "", taskIds := [] }).required
      = false ∧
    (evaluateVerifyGate
        { now := 0, fileExists := fun _ => false, readFileContent := fun _ => "",
          runCmd := fun _ => { exitCode := 1, stdout := "", stderr := "" },
          newRegExp := fun _ _ => Except.error "SyntaxError",
          parseJson := fun _ => Except.error "SyntaxError" }
        { id := some "g1", type := some "nope", required := some false }
        { qualityDir := ".quality", commands := [], taskId := "", taskIds := [] }).status
      = GateStatus.fail ∧
    (processGates
        { now := 0, fileExists := fun _ => false, readFileContent := fun _ => "",
          runCmd := fun _ => { exitCode := 1, stdout := "", stderr := "" },
          newRegExp := fun _ _ => Except.error "SyntaxError",
          parseJson := fun _ => Except.error "SyntaxError" }
        { qualityDir := ".quality", commands := [], taskId := "", taskIds := [] }
        [{ gateId := some "*", taskId := none, expiresAt := none }]
        [RawGateEntry.gate { id := some "g1", type := some "nope", required := some false }]).map
      GateResult.status = [GateStatus.waived] := by
  refine ⟨rfl, rfl, rfl⟩

/-- **C5.** (as amended) A gate result transitions from `fail` to `waived`
exactly when the gate failed and a waiver matches — the `required` flag is
not consulted; a gate that did not fail (in particular a passing gate) is
recorded unchanged and is never waived. -/
theorem waiver_application_spec (env : Env) (waivers : List Waiver)
    (taskIds : List String) (r : GateResult) :
    (∀ w, r.status = GateStatus.fail →
      findMatchingWaiver waivers r taskIds env.now = some w →
      applyWaivers env waivers taskIds r = gateWaivedResult r w ∧
        (applyWaivers env waivers taskIds r).status = GateStatus.waived) ∧
    (r.status = GateStatus.fail → findMatchingWaiver waivers r taskIds env.now = none →
      applyWaivers env waivers taskIds r = r) ∧
    (r.status ≠ GateStatus.fail → applyWaivers env waivers taskIds r = r) ∧
    (r.status = GateStatus.pass →
      (applyWaivers env waivers taskIds r).status = GateStatus.pass) := by
  refine ⟨?_, ?_, ?_, ?_⟩
  · intro w hfail hfind
    unfold applyWaivers
    rw [if_pos hfail, hfind]
    exact ⟨rfl, rfl⟩
  · intro hfail hfind
    unfold applyWaivers
    rw [if_pos hfail, hfind]
  · intro hne
    unfold applyWaivers
    rw [if_neg hne]
  · intro hpass
    unfold applyWaivers
    rw [if_neg (by rw [hpass]; exact fun hc => GateStatus.noConfusion hc)]
    rw [hpass]

theorem processGates_append (env : Env) (ctx : VerifyContext) (waivers : List Waiver)
    (xs ys : List RawGateEntry) :
    processGates env ctx waivers (xs ++ ys)
      = processGates env ctx waivers xs ++ processGates env ctx waivers ys := by
  induction xs with
  | nil => rfl
  | cons e rest ih =>
      cases e with
      | notObject => simpa [processGates] using ih
      | gate g =>
          simp only [List.cons_append, processGates]
          split_ifs <;> simp [ih]

/-- **C10.** An entry of the effective gates list that is not an object,
or whose `id` or `type` is missing or empty, is silently skipped: deleting
it from the list changes nothing — it yields no gate result, appears in no
count, and can neither pass, fail nor be waived. Likewise `mergeGates`
drops id-less gates from either side of the merge. -/
theorem malformed_gates_skipped :
    (∀ (env : Env) (ctx : VerifyContext) (waivers : List Waiver)
        (pre post : List RawGateEntry) (bad : RawGateEntry),
      (bad = RawGateEntry.notObject ∨
        ∃ g, bad = RawGateEntry.gate g ∧ (truthyId g.id = false ∨ truthyId g.type = false)) →
      processGates env ctx waivers (pre ++ bad :: post)
        = processGates env ctx waivers (pre ++ post)) ∧
    (∀ (other pre post : List GateEntry) (g : GateEntry), truthyId g.id = false →
      mergeGates other (pre ++ g :: post) = mergeGates other (pre ++ post) ∧
      mergeGates (pre ++ g :: post) other = mergeGates (pre ++ post) other) := by
  constructor
  · intro env ctx waivers pre post bad hbad
    have hsingle : processGates env ctx waivers (bad :: post)
        = processGates env ctx waivers post := by
      rcases hbad with h | ⟨g, hg, hmal⟩
      · subst h; rfl
      · subst hg
        have : (!(truthyId g.id) || !(truthyId g.type)) = true := by
          rcases hmal with h | h <;> simp [h]
        simp only [processGates, this, if_true]
    rw [processGates_append, hsingle, ← processGates_append]
  · intro other pre post g hg
    constructor
    · simp only [mergeGates]
      rw [List.foldl_append, List.foldl_cons]
      simp [hg, List.foldl_append]
    · simp only [mergeGates]
      rw [List.foldl_append, List.foldl_cons]
      simp [hg, List.foldl_append]

end CompoundQuality
